import Mathlib

/-!
Shallow embedding of the daily country-guess game backend
(src/backend/daily_game_backend.py, class DailyCountryGame and the three
Flask routes).  External effects are modelled as explicit oracle
parameters:

* the provider fetch (requests.get of the restcountries list) is an
  `Option (List RawCountry)`: `none` stands for a transport error or a
  non-200 status (the code leaves the pool unchanged in both cases),
  `some l` for a 200 response whose JSON decodes to `l`;
* `random.seed(today); random.shuffle(pool)` is a caller-supplied
  `shuffle : String → List RawCountry → List RawCountry` (the seed is
  the date string); where a claim needs it, the fact that Python's
  shuffle permutes the list is an explicit hypothesis;
* the image fetch/decode/blur/encode pipeline of `_process_images` is an
  `imgProc : String → Option (String × String)` giving, for a flag URL,
  the base64-encoded (blurred, unblurred) pair, or `none` on any failure;
* wall-clock quantities (`_get_current_date`, `get_next_reset_time`) are
  passed in as `today : String` and `next_reset : Int`;
* Python's `hash(name)` in the game-state route is a parameter
  `hashf : String → Int`.

Dictionaries are modelled as structures; a Python `None`-or-absent value
is an `Option`.  Python truthiness on strings/lists/dicts is modelled by
the corresponding emptiness test.
-/

namespace DailyCountryGame

/-- A raw record of the restcountries provider, with the fields the code
reads: `name.common`, `flags.png`, `capital` (list, possibly absent →
`[]`), `region` (absent → `none`), `population` (absent → `none`),
`cca2` (absent → `none`). -/
structure RawCountry where
  nameCommon : String
  flagsPng : String
  capital : List String
  region : Option String
  pop : Option Nat
  cca2 : Option String
  deriving DecidableEq

/-- The `current_country` dictionary built by `get_daily_country`
(lines 150-156); the image keys are added later by `_process_images`,
so they are `Option`s, `none` meaning the key is absent. -/
structure CountryData where
  name : String
  flag_url : String
  capital : String
  continent : String
  pop : Nat
  blurred_image : Option String
  unblurred_image : Option String
  deriving DecidableEq

/-- The mutable fields of the `DailyCountryGame` instance (the unused
`blurred_flag` field of `__init__` is never read or written again and is
omitted). -/
structure GameState where
  current_country : Option CountryData
  last_reset_date : Option String
  country_pool : List RawCountry
  cached_country : Option CountryData
  cached_date : Option String
  deriving DecidableEq

/-- The fresh state built by `__init__`. -/
def initState : GameState :=
  { current_country := none
    last_reset_date := none
    country_pool := []
    cached_country := none
    cached_date := none }

/-- Python truthiness of `country.get('cca2')`: the key must be present
and hold a non-empty string. -/
def hasCca2 : Option String → Bool
  | none => false
  | some s => !s.isEmpty

/-- The filter of `_fetch_country_pool` (lines 49-53):
`country.get('population', 0) > 500000 and country.get('cca2')`. -/
def poolFilter (c : RawCountry) : Bool :=
  decide (500000 < c.pop.getD 0) && hasCca2 c.cca2

/-- `_fetch_country_pool` (lines 43-74).  On a 200 response the pool is
replaced by the filtered list shuffled with today's date as seed; on a
non-200 status or an exception the state is left unchanged.  The
side-effecting write of `country_names.json` touches no game state and
is swallowed on error, so it does not appear here. -/
def fetch_country_pool (today : String)
    (shuffle : String → List RawCountry → List RawCountry)
    (fetched : Option (List RawCountry)) (s : GameState) : GameState :=
  match fetched with
  | some countries =>
      { s with country_pool := shuffle today (countries.filter poolFilter) }
  | none => s

/-- `_load_cache` (lines 31-36): returns the cached country only when
`cached_date` equals today and `cached_country` is truthy (a non-`None`
dict). -/
def load_cache (today : String) (s : GameState) : Option CountryData :=
  match s.cached_country with
  | some c => if s.cached_date = some today then some c else none
  | none => none

/-- `_save_cache` (lines 38-41). -/
def save_cache (today : String) (c : CountryData) (s : GameState) : GameState :=
  { s with cached_date := some today, cached_country := some c }

/-- `_use_placeholder_image` (lines 167-170). -/
def use_placeholder_image (c : CountryData) : CountryData :=
  { c with blurred_image := some "placeholder_base64"
           unblurred_image := some "placeholder_base64" }

/-- `_process_images` (lines 76-114), acting on the current country
record.  A falsy (empty) flag URL raises, any failure of the
fetch/decode/blur/encode pipeline raises, and every raise is caught and
turned into `_use_placeholder_image`; on success both encoded variants
are stored. -/
def process_images (imgProc : String → Option (String × String))
    (c : CountryData) : CountryData :=
  if c.flag_url.isEmpty then use_placeholder_image c
  else
    match imgProc c.flag_url with
    | some (b, u) => { c with blurred_image := some b, unblurred_image := some u }
    | none => use_placeholder_image c

/-- The skeleton record built from the head of the pool
(lines 150-156): `capital[0] if country.get('capital') else 'N/A'`,
`country.get('region', 'Unknown')`, `country.get('population', 0)`. -/
def build_country_data (r : RawCountry) : CountryData :=
  { name := r.nameCommon
    flag_url := r.flagsPng
    capital := match r.capital with
      | [] => "N/A"
      | c :: _ => c
    continent := r.region.getD "Unknown"
    pop := r.pop.getD 0
    blurred_image := none
    unblurred_image := none }

/-- Lines 142-143 of `get_daily_country`: fetch the pool only when the
held pool is empty. -/
def pool_refresh (today : String)
    (shuffle : String → List RawCountry → List RawCountry)
    (fetched : Option (List RawCountry)) (s : GameState) : GameState :=
  if s.country_pool.isEmpty then fetch_country_pool today shuffle fetched s
  else s

/-- Lines 148-161 of `get_daily_country`: the cache-miss derivation.
With a non-empty pool, build the skeleton from its head, process the
images in place, save the processed record to the cache and stamp the
reset date; with an empty pool return `None` without stamping. -/
def miss_branch (today : String)
    (imgProc : String → Option (String × String)) (s1 : GameState) :
    Option CountryData × GameState :=
  match s1.country_pool with
  | [] => (none, s1)
  | country :: _ =>
      let cur := process_images imgProc (build_country_data country)
      (some cur,
        { save_cache today cur s1 with
            current_country := some cur
            last_reset_date := some today })

/-- `get_daily_country` (lines 129-165), returning the value of the
Python `return` statement together with the state after the call. -/
def get_daily_country (today : String)
    (shuffle : String → List RawCountry → List RawCountry)
    (fetched : Option (List RawCountry))
    (imgProc : String → Option (String × String))
    (s : GameState) : Option CountryData × GameState :=
  if s.last_reset_date = some today then (s.current_country, s)
  else
    match load_cache today s with
    | some cached =>
        let cur := process_images imgProc cached
        (some cur,
          { s with current_country := some cur, last_reset_date := some today })
    | none => miss_branch today imgProc (pool_refresh today shuffle fetched s)

/-- `daily_check` (lines 180-190).  It performs up to two provider
fetches (one directly, one inside the nested `get_daily_country`), so it
receives two fetch outcomes. -/
def daily_check (today : String)
    (shuffle : String → List RawCountry → List RawCountry)
    (fetched1 fetched2 : Option (List RawCountry))
    (imgProc : String → Option (String × String))
    (s : GameState) : GameState :=
  if s.last_reset_date = some today then s
  else
    let s1 : GameState := { s with current_country := none }
    match load_cache today s1 with
    | some _ => s1
    | none =>
        let s2 := fetch_country_pool today shuffle fetched1
          { s1 with country_pool := [] }
        (get_daily_country today shuffle fetched2 imgProc s2).2

/-- Python's `str.lower()` as used on guesses and country names
(lines 221 and 227): character-wise lowercasing. -/
def strLower (s : String) : String := String.mk (s.data.map Char.toLower)

/-- Python's thousands-separator formatting of a digit string given in
reverse order: a comma after every third digit. -/
def groupDigits : List Char → List Char
  | a :: b :: c :: d :: rest => a :: b :: c :: ',' :: groupDigits (d :: rest)
  | l => l

/-- The f-string `{population:,}` of line 253: decimal digits with a
comma every three digits. -/
def formatPop (n : Nat) : String :=
  String.mk (groupDigits (toString n).data.reverse).reverse

/-- The JSON body built by the `/api/guess` route: the dictionary of
lines 229-236; `image_url`, absent from the initial dictionary and only
added in the terminal branch, is `none` when the key is absent. -/
structure GuessResponse where
  correct : Bool
  hint_level : Int
  next_reset : Int
  hint_text : Option String
  hint_image : Option String
  player_name : Option String
  image_url : Option String
  deriving DecidableEq

/-- `check_guess` (lines 218-262).  `guess` and `hint_level` are the
request-body values (after the route-level `.get` defaults); the guess
is lowercased at line 221.  The `Except.error` value models the 400
"No active game" response.  The route only reads the game state, and the
returned state makes that explicit. -/
def check_guess (guess : String) (hint_level : Int) (next_reset : Int)
    (s : GameState) : Except String GuessResponse × GameState :=
  match s.current_country with
  | none => (Except.error "No active game", s)
  | some c =>
      let g := strLower guess
      let correct := g == strLower c.name
      let response : GuessResponse :=
        { correct := correct
          hint_level := hint_level
          next_reset := next_reset
          hint_text := none
          hint_image := none
          player_name := none
          image_url := none }
      if correct || 4 ≤ hint_level then
        (Except.ok { response with
            hint_image := none
            image_url := some c.flag_url
            player_name := some c.name }, s)
      else
        let response :=
          if hint_level = 0 then
            { response with
                hint_text := some "Unblurred Flag"
                hint_image := c.unblurred_image }
          else if hint_level = 1 then
            { response with
                hint_text := some ("Population: " ++ formatPop c.pop)
                hint_image := c.unblurred_image }
          else if hint_level = 2 then
            { response with
                hint_text := some ("Continent: " ++ c.continent)
                hint_image := c.unblurred_image }
          else if hint_level = 3 then
            { response with
                hint_text := some ("Capital: " ++ c.capital)
                hint_image := some c.flag_url }
          else response
        (Except.ok response, s)

/-- The JSON body of the `/api/game-state` route (lines 199-204). -/
structure GameStateResponse where
  blurred_image : Option String
  game_id : Int
  next_reset : Int
  current_date : Option String
  deriving DecidableEq

/-- `get_game_state` (lines 194-204).  When `get_daily_country` returns
`None`, line 201 subscripts `None` and raises an uncaught `TypeError`;
that exception is the `Except.error` value. -/
def get_game_state (today : String)
    (shuffle : String → List RawCountry → List RawCountry)
    (fetched : Option (List RawCountry))
    (imgProc : String → Option (String × String))
    (hashf : String → Int) (next_reset : Int) (s : GameState) :
    Except String GameStateResponse × GameState :=
  match get_daily_country today shuffle fetched imgProc s with
  | (none, s1) =>
      (Except.error "TypeError: NoneType object is not subscriptable", s1)
  | (some c, s1) =>
      (Except.ok
        { blurred_image := c.blurred_image
          game_id := hashf c.name
          next_reset := next_reset
          current_date := s1.last_reset_date }, s1)

/-- The per-call environment of one `get_daily_country` invocation: the
outcome of the provider fetch and of the image pipeline during that
call. -/
structure CallEnv where
  fetched : Option (List RawCountry)
  imgProc : String → Option (String × String)

/-- A sequence of `get_daily_country` calls under a fixed current date,
each with its own fetch/image outcomes, listing the returned values. -/
def runSeq (today : String)
    (shuffle : String → List RawCountry → List RawCountry) :
    List CallEnv → GameState → List (Option CountryData)
  | [], _ => []
  | e :: es, s =>
      (get_daily_country today shuffle e.fetched e.imgProc s).1 ::
        runSeq today shuffle es
          (get_daily_country today shuffle e.fetched e.imgProc s).2

/-! Concrete data used to instantiate theorems with hypotheses. -/

/-- A qualifying raw provider record. -/
def rawA : RawCountry :=
  { nameCommon := "Atlantis"
    flagsPng := "http://flags.example/a.png"
    capital := ["Aville"]
    region := some "Europe"
    pop := some 10000000
    cca2 := some "AT" }

/-- A raw record excluded by the population filter. -/
def rawSmall : RawCountry :=
  { nameCommon := "Tinyland"
    flagsPng := "http://flags.example/t.png"
    capital := ["Tinytown"]
    region := some "Europe"
    pop := some 100000
    cca2 := some "TL" }

/-- A qualifying raw provider record distinct from `rawA`. -/
def rawB : RawCountry :=
  { nameCommon := "Borduria"
    flagsPng := "http://flags.example/b.png"
    capital := ["Bville"]
    region := some "Europe"
    pop := some 9000000
    cca2 := some "BO" }

/-- A fully derived country record named France. -/
def franceData : CountryData :=
  { name := "France"
    flag_url := "http://flags.example/fr.png"
    capital := "Paris"
    continent := "Europe"
    pop := 68000000
    blurred_image := some "b64blurred"
    unblurred_image := some "b64unblurred" }

/-- A derived record standing for a previous day's country. -/
def oldData : CountryData :=
  { name := "Oldland"
    flag_url := "http://flags.example/o.png"
    capital := "Oldtown"
    continent := "Asia"
    pop := 1000000
    blurred_image := some "ob"
    unblurred_image := some "ou" }

/-- A derived record stored in the cache. -/
def cachedData : CountryData :=
  { name := "Cacheland"
    flag_url := "http://flags.example/c.png"
    capital := "Cachetown"
    continent := "Oceania"
    pop := 2000000
    blurred_image := some "cb"
    unblurred_image := some "cu" }

/-- An identity stand-in for the seeded shuffle. -/
def idShuffle : String → List RawCountry → List RawCountry := fun _ l => l

/-- An always-succeeding image pipeline. -/
def imgOk : String → Option (String × String) := fun u =>
  some ("blur:" ++ u, "plain:" ++ u)

/-- An always-failing image pipeline. -/
def imgFail : String → Option (String × String) := fun _ => none

/-- The correctness verdict carried by a guess response, when one was
returned at all. -/
def guessVerdict (p : Except String GuessResponse × GameState) : Option Bool :=
  match p.1 with
  | Except.ok r => some r.correct
  | Except.error _ => none

/-- The record derived from `rawA` under `imgOk` on date 2024-11-09. -/
def derivedA : CountryData :=
  { name := "Atlantis"
    flag_url := "http://flags.example/a.png"
    capital := "Aville"
    continent := "Europe"
    pop := 10000000
    blurred_image := some "blur:http://flags.example/a.png"
    unblurred_image := some "plain:http://flags.example/a.png" }

/-- A state holding France as the already-derived current puzzle. -/
def franceState : GameState :=
  { current_country := some franceData
    last_reset_date := some "2024-11-09"
    country_pool := []
    cached_country := some franceData
    cached_date := some "2024-11-09" }

/-- A state whose reset stamp is one day old while its cache entry is
stamped for the new day. -/
def staleResetFreshCache : GameState :=
  { current_country := some oldData
    last_reset_date := some "2024-11-08"
    country_pool := [rawA]
    cached_country := some cachedData
    cached_date := some "2024-11-09" }

/-- A state whose reset stamp and cache stamp are both one day old. -/
def staleState : GameState :=
  { current_country := some oldData
    last_reset_date := some "2024-11-08"
    country_pool := [rawA]
    cached_country := some cachedData
    cached_date := some "2024-11-08" }

/-! Helper lemmas about `get_daily_country`. -/

/-- Fast path: when the reset stamp already equals today, the call
returns the current record and leaves the state untouched. -/
theorem get_daily_country_fast (today : String)
    (shuffle : String → List RawCountry → List RawCountry)
    (fetched : Option (List RawCountry))
    (imgProc : String → Option (String × String))
    (s : GameState) (h : s.last_reset_date = some today) :
    get_daily_country today shuffle fetched imgProc s = (s.current_country, s) := by
  unfold get_daily_country
  rw [if_pos h]

/-- Whenever a call returns a record, the post-state stores that record
as current and carries today's reset stamp. -/
theorem get_daily_country_post (today : String)
    (shuffle : String → List RawCountry → List RawCountry)
    (fetched : Option (List RawCountry))
    (imgProc : String → Option (String × String))
    (s s2 : GameState) (r : CountryData)
    (h : get_daily_country today shuffle fetched imgProc s = (some r, s2)) :
    s2.current_country = some r ∧ s2.last_reset_date = some today := by
  unfold get_daily_country at h
  split at h
  next hd =>
    rw [Prod.mk.injEq] at h
    obtain ⟨h1, h2⟩ := h
    subst h2
    exact ⟨h1, hd⟩
  next hd =>
    split at h
    next cached heq =>
      rw [Prod.mk.injEq] at h
      obtain ⟨h1, h2⟩ := h
      subst h2
      exact ⟨h1, rfl⟩
    next heq =>
      unfold miss_branch at h
      split at h
      next hp => exact absurd h (by simp)
      next a t hp =>
        rw [Prod.mk.injEq] at h
        obtain ⟨h1, h2⟩ := h
        subst h2
        exact ⟨h1, rfl⟩

/-- After the reset stamp matches today, the whole remaining call
sequence keeps returning the stored record and never changes it. -/
theorem runSeq_const (today : String)
    (shuffle : String → List RawCountry → List RawCountry)
    (envs : List CallEnv) (s : GameState) (c : CountryData)
    (hd : s.last_reset_date = some today) (hc : s.current_country = some c) :
    ∀ x ∈ runSeq today shuffle envs s, x = some c := by
  induction envs generalizing s with
  | nil => intro x hx; exact absurd hx (by simp [runSeq])
  | cons e es ih =>
      intro x hx
      unfold runSeq at hx
      rw [get_daily_country_fast today shuffle e.fetched e.imgProc s hd] at hx
      rcases List.mem_cons.mp hx with h1 | h1
      · rw [h1, hc]
      · exact ih s hd hc x h1

/-- Image processing under a failing pipeline always produces the
placeholder pair. -/
theorem process_images_fail (c : CountryData) :
    process_images imgFail c = use_placeholder_image c := by
  unfold process_images imgFail
  split <;> rfl

/-- Claim C3: for every current puzzle record, guess text and
caller-supplied hint level, if the guess is correct (case-insensitively)
or the hint level is at least 4, `check_guess` answers with the country
name as `player_name` and the record's flag URL as `image_url`, with no
hint text and no hint image — regardless of which level was supplied
when the guess is correct. -/
theorem C3_terminal_reveal (guess : String) (lvl nr : Int)
    (s : GameState) (c : CountryData)
    (hc : s.current_country = some c)
    (hterm : strLower guess = strLower c.name ∨ 4 ≤ lvl) :
    (check_guess guess lvl nr s).1 =
      Except.ok
        { correct := strLower guess == strLower c.name
          hint_level := lvl
          next_reset := nr
          hint_text := none
          hint_image := none
          player_name := some c.name
          image_url := some c.flag_url } := by
  unfold check_guess
  rw [hc]
  dsimp only
  rcases hterm with h | h
  · rw [if_pos (by simp [h])]
  · rw [if_pos (by simp [h])]

/-- Witness for C3 at a concrete input: a correct guess differing only
in casing, at hint level 0. -/
theorem C3_terminal_reveal_witness :
    (check_guess "francE" 0 3600 franceState).1 =
      Except.ok
        { correct := strLower "francE" == strLower franceData.name
          hint_level := 0
          next_reset := 3600
          hint_text := none
          hint_image := none
          player_name := some franceData.name
          image_url := some franceData.flag_url } :=
  C3_terminal_reveal "francE" 0 3600 franceState franceData (by decide)
    (Or.inl (by decide))

/-- Claim C4: for every current puzzle record, every wrong guess and
every hint level in 0..3, `check_guess` reveals exactly the hint-table
field of that level (0: the unblurred flag; 1: the population; 2: the
continent; 3: the capital with the original flag URL as the image) and
never a field of a higher level — in particular the country name and
the terminal `image_url` stay empty. -/
theorem C4_hint_table (guess : String) (lvl nr : Int)
    (s : GameState) (c : CountryData)
    (hc : s.current_country = some c)
    (hwrong : strLower guess ≠ strLower c.name)
    (hlvl : lvl = 0 ∨ lvl = 1 ∨ lvl = 2 ∨ lvl = 3) :
    (check_guess guess lvl nr s).1 =
      Except.ok
        { correct := false
          hint_level := lvl
          next_reset := nr
          hint_text := some (if lvl = 0 then "Unblurred Flag"
            else if lvl = 1 then "Population: " ++ formatPop c.pop
            else if lvl = 2 then "Continent: " ++ c.continent
            else "Capital: " ++ c.capital)
          hint_image := if lvl = 3 then some c.flag_url else c.unblurred_image
          player_name := none
          image_url := none } := by
  have hbeq : (strLower guess == strLower c.name) = false := by
    simpa using hwrong
  rcases hlvl with h | h | h | h <;> subst h <;>
    simp [check_guess, hc, hbeq]

/-- Witness for C4 at a concrete input: a wrong guess at hint level 2
reveals the continent over the unblurred flag and no country name. -/
theorem C4_hint_table_witness :
    (check_guess "Spain" 2 3600 franceState).1 =
      Except.ok
        { correct := false
          hint_level := 2
          next_reset := 3600
          hint_text := some (if (2 : Int) = 0 then "Unblurred Flag"
            else if (2 : Int) = 1 then "Population: " ++ formatPop franceData.pop
            else if (2 : Int) = 2 then "Continent: " ++ franceData.continent
            else "Capital: " ++ franceData.capital)
          hint_image := if (2 : Int) = 3 then some franceData.flag_url
            else franceData.unblurred_image
          player_name := none
          image_url := none } :=
  C4_hint_table "Spain" 2 3600 franceState franceData (by decide) (by decide)
    (Or.inr (Or.inr (Or.inl rfl)))

/-- Claim C8: for every current puzzle record and guess text, the
verdict of `check_guess` is true exactly when the lowercased guess
equals the lowercased country name; a guess differing only in casing is
therefore judged correct. -/
theorem C8_case_insensitive (guess : String) (lvl nr : Int)
    (s : GameState) (c : CountryData)
    (hc : s.current_country = some c) :
    guessVerdict (check_guess guess lvl nr s) =
      some (strLower guess == strLower c.name) := by
  unfold check_guess
  rw [hc]
  dsimp only
  split
  · rfl
  · unfold guessVerdict
    dsimp only
    repeat' split
    all_goals rfl

/-- Witness for C8 at a concrete input: the guess differs from the
current country name only in casing and the verdict is the lowercase
comparison. -/
theorem C8_case_insensitive_witness :
    guessVerdict (check_guess "francE" 0 3600 franceState) =
      some (strLower "francE" == strLower franceData.name) :=
  C8_case_insensitive "francE" 0 3600 franceState franceData (by decide)

/-- Claim C9: for every guess text and hint level, when no current
puzzle record exists `check_guess` fails with the "No active game"
error, returns no verdict or hint content, and leaves the state
unchanged. -/
theorem C9_no_active_puzzle (guess : String) (lvl nr : Int)
    (s : GameState) (h : s.current_country = none) :
    check_guess guess lvl nr s = (Except.error "No active game", s) := by
  unfold check_guess
  rw [h]

/-- Witness for C9 at a concrete input: the fresh state has no current
record. -/
theorem C9_no_active_puzzle_witness :
    check_guess "France" 2 100 initState = (Except.error "No active game", initState) :=
  C9_no_active_puzzle "France" 2 100 initState rfl

/-- Claim C10: `check_guess` never mutates the manager state: every
field — current country, reset stamp, pool, cached record and cache
stamp — is the same before and after the call, on the correct, wrong
and no-active-puzzle paths alike. -/
theorem C10_check_guess_frame (guess : String) (lvl nr : Int) (s : GameState) :
    (check_guess guess lvl nr s).2.current_country = s.current_country ∧
    (check_guess guess lvl nr s).2.last_reset_date = s.last_reset_date ∧
    (check_guess guess lvl nr s).2.country_pool = s.country_pool ∧
    (check_guess guess lvl nr s).2.cached_country = s.cached_country ∧
    (check_guess guess lvl nr s).2.cached_date = s.cached_date := by
  have h : (check_guess guess lvl nr s).2 = s := by
    unfold check_guess
    cases s.current_country with
    | none => rfl
    | some c =>
        dsimp only
        split <;> rfl
  rw [h]
  exact ⟨rfl, rfl, rfl, rfl, rfl⟩

/-- Claim C2: within one UTC date, every call of a `get_daily_country`
sequence that returns a record returns a record with the same country
name, from any starting state and under any per-call fetch and image
outcomes. -/
theorem C2_one_country_per_day (today : String)
    (shuffle : String → List RawCountry → List RawCountry)
    (envs : List CallEnv) (s : GameState) (r1 r2 : CountryData)
    (h1 : some r1 ∈ runSeq today shuffle envs s)
    (h2 : some r2 ∈ runSeq today shuffle envs s) :
    r1.name = r2.name := by
  induction envs generalizing s with
  | nil => exact absurd h1 (by simp [runSeq])
  | cons e es ih =>
      simp only [runSeq] at h1 h2
      rcases List.mem_cons.mp h1 with hh1 | ht1
      · have hpair1 : get_daily_country today shuffle e.fetched e.imgProc s =
            (some r1, (get_daily_country today shuffle e.fetched e.imgProc s).2) := by
          rw [hh1]
        obtain ⟨hcur, hdate⟩ :=
          get_daily_country_post today shuffle e.fetched e.imgProc s _ r1 hpair1
        rcases List.mem_cons.mp h2 with hh2 | ht2
        · rw [Option.some.inj (hh1.trans hh2.symm)]
        · have hall := runSeq_const today shuffle es _ r1 hdate hcur (some r2) ht2
          rw [Option.some.inj hall]
      · rcases List.mem_cons.mp h2 with hh2 | ht2
        · have hpair2 : get_daily_country today shuffle e.fetched e.imgProc s =
              (some r2, (get_daily_country today shuffle e.fetched e.imgProc s).2) := by
            rw [hh2]
          obtain ⟨hcur, hdate⟩ :=
            get_daily_country_post today shuffle e.fetched e.imgProc s _ r2 hpair2
          have hall := runSeq_const today shuffle es _ r2 hdate hcur (some r1) ht1
          rw [Option.some.inj hall]
        · exact ih _ ht1 ht2

/-- Witness for C2 at a concrete input: two same-day calls, the second
with failing oracles, both return the Atlantis record. -/
theorem C2_one_country_per_day_witness :
    (some derivedA ∈ runSeq "2024-11-09" idShuffle
        [⟨some [rawA], imgOk⟩, ⟨none, imgFail⟩] initState) ∧
      derivedA.name = derivedA.name :=
  ⟨by decide,
    C2_one_country_per_day "2024-11-09" idShuffle
      [⟨some [rawA], imgOk⟩, ⟨none, imgFail⟩] initState derivedA derivedA
      (by decide) (by decide)⟩

/-- Claim C5: when every step of the image pipeline fails, a
`get_daily_country` call that crosses the day boundary still returns a
record whenever it would have under a working pipeline, and that record
carries the placeholder value in both image fields; the failure is never
surfaced as an error. -/
theorem C5_image_failure_placeholder (today : String)
    (shuffle : String → List RawCountry → List RawCountry)
    (fetched : Option (List RawCountry))
    (img2 : String → Option (String × String))
    (s : GameState) (r2 : CountryData)
    (hday : s.last_reset_date ≠ some today)
    (h2 : (get_daily_country today shuffle fetched img2 s).1 = some r2) :
    (get_daily_country today shuffle fetched imgFail s).1.isSome = true ∧
    (get_daily_country today shuffle fetched imgFail s).1.map
      (fun r => r.blurred_image) = some (some "placeholder_base64") ∧
    (get_daily_country today shuffle fetched imgFail s).1.map
      (fun r => r.unblurred_image) = some (some "placeholder_base64") := by
  unfold get_daily_country at h2 ⊢
  rw [if_neg hday] at h2 ⊢
  revert h2
  cases load_cache today s with
  | some cached =>
      intro h2
      dsimp only
      rw [process_images_fail cached]
      exact ⟨rfl, rfl, rfl⟩
  | none =>
      unfold miss_branch
      cases (pool_refresh today shuffle fetched s).country_pool with
      | nil =>
          intro h2
          exact absurd h2 (by simp)
      | cons a t =>
          intro h2
          dsimp only
          rw [process_images_fail (build_country_data a)]
          exact ⟨rfl, rfl, rfl⟩

/-- Witness for C5 at a concrete input: the failing pipeline still
yields a record, with placeholder images. -/
theorem C5_image_failure_placeholder_witness :
    (get_daily_country "2024-11-09" idShuffle (some [rawA]) imgFail initState).1.isSome = true ∧
    (get_daily_country "2024-11-09" idShuffle (some [rawA]) imgFail initState).1.map
      (fun r => r.blurred_image) = some (some "placeholder_base64") ∧
    (get_daily_country "2024-11-09" idShuffle (some [rawA]) imgFail initState).1.map
      (fun r => r.unblurred_image) = some (some "placeholder_base64") :=
  C5_image_failure_placeholder "2024-11-09" idShuffle (some [rawA]) imgOk initState
    derivedA (by decide) (by decide)

/-- Claim C7: for any raw provider list, the pool built from a 200
response holds exactly the raw records whose population strictly
exceeds 500000 and whose country code is present (non-empty); the
seeded shuffle being a permutation, membership is unchanged by it. -/
theorem C7_pool_filter (today : String)
    (shuffle : String → List RawCountry → List RawCountry)
    (hshuffle : ∀ d l, List.Perm (shuffle d l) l)
    (l : List RawCountry) (s : GameState) (r : RawCountry) :
    r ∈ (fetch_country_pool today shuffle (some l) s).country_pool ↔
      r ∈ l ∧ 500000 < r.pop.getD 0 ∧ hasCca2 r.cca2 = true := by
  unfold fetch_country_pool
  dsimp only
  rw [(hshuffle today (l.filter poolFilter)).mem_iff, List.mem_filter]
  simp [poolFilter, and_assoc]

/-- Witness for C7 at a concrete input: the qualifying record is in the
pool built from a two-record raw list. -/
theorem C7_pool_filter_witness :
    rawA ∈ (fetch_country_pool "2024-11-09" idShuffle (some [rawA, rawSmall])
        initState).country_pool ↔
      rawA ∈ [rawA, rawSmall] ∧ 500000 < rawA.pop.getD 0 ∧ hasCca2 rawA.cca2 = true :=
  C7_pool_filter "2024-11-09" idShuffle (fun _ l => List.Perm.refl l)
    [rawA, rawSmall] initState rawA

/-- Counterexample to claim C1: in a state whose day has advanced but
whose cache entry is stamped for the new day, `daily_check` leaves the
held pool untouched (it still holds yesterday's `rawA`, not the freshly
fetchable `rawB`), performs no fetch and derives no puzzle. -/
theorem C1_counterexample :
    (daily_check "2024-11-09" idShuffle (some [rawB]) (some [rawB]) imgOk
        staleResetFreshCache).country_pool = [rawA] ∧
    (daily_check "2024-11-09" idShuffle (some [rawB]) (some [rawB]) imgOk
        staleResetFreshCache).current_country = none ∧
    (daily_check "2024-11-09" idShuffle (some [rawB]) (some [rawB]) imgOk
        staleResetFreshCache).cached_country = some cachedData := by
  decide

/-- Claim C1 as amended: when `daily_check` runs on a day that has
advanced past the last-known reset stamp and no cache entry stamped for
the current date exists, it clears the held pool, performs a fresh
provider fetch and derives the puzzle through the same path as the
cache-miss branch of `get_daily_country`. -/
theorem C1_daily_check_refetch (today : String)
    (shuffle : String → List RawCountry → List RawCountry)
    (fetched1 fetched2 : Option (List RawCountry))
    (imgProc : String → Option (String × String))
    (s : GameState)
    (hday : s.last_reset_date ≠ some today)
    (hcache : load_cache today { s with current_country := none } = none) :
    daily_check today shuffle fetched1 fetched2 imgProc s =
      (get_daily_country today shuffle fetched2 imgProc
        (fetch_country_pool today shuffle fetched1
          { s with current_country := none, country_pool := [] })).2 := by
  unfold daily_check
  rw [if_neg hday]
  dsimp only
  rw [hcache]

/-- Witness for the amended C1 at a concrete input: stale reset stamp
and stale cache stamp. -/
theorem C1_daily_check_refetch_witness :
    daily_check "2024-11-09" idShuffle (some [rawB]) (some [rawB]) imgOk staleState =
      (get_daily_country "2024-11-09" idShuffle (some [rawB]) imgOk
        (fetch_country_pool "2024-11-09" idShuffle (some [rawB])
          { staleState with current_country := none, country_pool := [] })).2 :=
  C1_daily_check_refetch "2024-11-09" idShuffle (some [rawB]) (some [rawB]) imgOk
    staleState (by decide) (by decide)

/-- Claim C6, evaluated at the failing input: with no pool, no cache and
a failing provider fetch, `get_daily_country` returns `None` (the
no-puzzle-available outcome), but the game-state route then subscripts
`None` and raises an uncaught `TypeError` instead of producing a
well-formed service-unavailable response. -/
theorem C6_no_pool_unhandled_crash :
    (get_daily_country "2024-11-09" idShuffle none imgFail initState).1 = none ∧
    (get_game_state "2024-11-09" idShuffle none imgFail (fun _ => 0) 86399 initState).1 =
      Except.error "TypeError: NoneType object is not subscriptable" :=
  ⟨rfl, rfl⟩

end DailyCountryGame
